import Mathlib

/-!
Verification of the configuration layer of an LSM key-value store
(`include/leveldb/options.h`): the `CompressionType` enum, the
`Options` aggregate with its defaults and the `PrepareForBulkLoad`
preset, the `Dump` introspection routine, per-level size formulas and
the `ReadOptions` / `WriteOptions` value types.

Pointer-typed capability handles (`const Comparator*`, `Env*`,
`shared_ptr<Logger>`, ...) are embedded as `Option Nat`: `none` is
`nullptr` and `some p` is a non-null pointer with identity `p`.
C++ `int` fields are embedded as `Int`, `size_t` / `uint64_t` /
`unsigned int` fields as `Nat`, `double` as `Rat`, `std::string` as
`String` and `std::vector` as `List`.
-/

namespace RocksDBOptions

/-- A pointer-typed capability handle: `none` models `nullptr`,
`some p` a non-null pointer whose identity is `p`. -/
abbrev Ptr : Type := Option Nat

/-- The block compression method, from `enum CompressionType` in
`include/leveldb/options.h` lines 33-40. -/
inductive CompressionType : Type where
  | kNoCompression
  | kSnappyCompression
  | kZlibCompression
  | kBZip2Compression
deriving DecidableEq, Repr

/-- The numeric value of each enumerator, exactly as written in the
source: `kNoCompression = 0x0`, `kSnappyCompression = 0x1`,
`kZlibCompression = 0x2`, `kBZip2Compression = 0x3`. -/
def CompressionType.toNat : CompressionType → Nat
  | .kNoCompression => 0x0
  | .kSnappyCompression => 0x1
  | .kZlibCompression => 0x2
  | .kBZip2Compression => 0x3

/-- Decoding a stored numeric value back into a `CompressionType`;
values outside the enum decode to `none`. -/
def CompressionType.fromNat : Nat → Option CompressionType
  | 0 => some .kNoCompression
  | 1 => some .kSnappyCompression
  | 2 => some .kZlibCompression
  | 3 => some .kBZip2Compression
  | _ => none

/-- `struct CompressionOptions` from `include/leveldb/options.h`
lines 43-53: algorithm-specific tuning knobs. -/
structure CompressionOptions : Type where
  window_bits : Int
  level : Int
  strategy : Int
deriving DecidableEq, Repr

/-- The no-argument `CompressionOptions()` constructor:
`window_bits(-14), level(-1), strategy(0)`. -/
def CompressionOptions.base : CompressionOptions :=
  { window_bits := -14, level := -1, strategy := 0 }

/-- `struct Options` from `include/leveldb/options.h` lines 56-433,
fields in source order.  C++ `int` is `Int`; `size_t`, `uint64_t` and
`unsigned int` are `Nat`; `double` is `Rat`; raw and shared pointers
are `Ptr`. -/
structure Options : Type where
  comparator : Ptr
  merge_operator : Ptr
  compaction_filter : Ptr
  create_if_missing : Bool
  error_if_exists : Bool
  paranoid_checks : Bool
  env : Ptr
  info_log : Ptr
  write_buffer_size : Nat
  max_write_buffer_number : Int
  max_open_files : Int
  block_cache : Ptr
  block_size : Nat
  block_restart_interval : Int
  compression : CompressionType
  compression_per_level : List CompressionType
  compression_opts : CompressionOptions
  filter_policy : Ptr
  num_levels : Int
  level0_file_num_compaction_trigger : Int
  level0_slowdown_writes_trigger : Int
  level0_stop_writes_trigger : Int
  max_mem_compaction_level : Int
  target_file_size_base : Int
  target_file_size_multiplier : Int
  max_bytes_for_level_base : Nat
  max_bytes_for_level_multiplier : Int
  max_bytes_for_level_multiplier_additional : List Int
  expanded_compaction_factor : Int
  source_compaction_factor : Int
  max_grandparent_overlap_factor : Int
  statistics : Ptr
  disableDataSync : Bool
  use_fsync : Bool
  db_stats_log_interval : Int
  db_log_dir : String
  disable_seek_compaction : Bool
  delete_obsolete_files_period_micros : Nat
  max_background_compactions : Int
  max_log_file_size : Nat
  log_file_time_to_roll : Nat
  keep_log_file_num : Nat
  rate_limit : Rat
  rate_limit_delay_milliseconds : Nat
  max_manifest_file_size : Nat
  no_block_cache : Bool
  table_cache_numshardbits : Int
  disable_auto_compactions : Bool
  WAL_ttl_seconds : Nat
  manifest_preallocation_size : Nat
  purge_redundant_kvs_while_flush : Bool
  allow_os_buffer : Bool
  allow_readahead : Bool
  allow_readahead_compactions : Bool
  allow_mmap_reads : Bool
  allow_mmap_writes : Bool
  is_fd_close_on_exec : Bool
  skip_log_error_on_recovery : Bool

/-- Modelled from the spec: the body of the no-argument `Options()`
constructor lives in `util/options.cc`, which is absent from the
sources; only its declaration (line 369) and the per-field default
values documented in the header and in the spec (§4.1 table, §3
ranges) are available.  Every documented default is reproduced
verbatim: comparator = bytewise comparator (a fixed non-null
capability, handle `some 0`), merge_operator / compaction_filter /
info_log / block_cache / filter_policy / statistics = nullptr,
env = `Env::Default()` (a fixed non-null capability, handle `some 1`),
create_if_missing = error_if_exists = paranoid_checks = false,
write_buffer_size = 4 MiB, max_write_buffer_number = 2,
max_open_files = 1000, block_size = 4 KiB,
block_restart_interval = 16, compression = snappy,
compression_opts = CompressionOptions(), num_levels = 7,
target_file_size_base = 2 MiB, target_file_size_multiplier = 1,
max_bytes_for_level_base = 10 MiB,
max_bytes_for_level_multiplier = 10, source_compaction_factor = 1,
db_stats_log_interval = 1800,
delete_obsolete_files_period_micros = 0,
max_background_compactions = 1, max_log_file_size = 0,
log_file_time_to_roll = 0, keep_log_file_num = 1000,
rate_limit disabled (0, i.e. ≤ 1.0),
max_manifest_file_size = max-value sentinel, WAL_ttl_seconds = 0,
manifest_preallocation_size = 4 MiB,
purge_redundant_kvs_while_flush = allow_os_buffer = allow_readahead =
allow_readahead_compactions = allow_mmap_writes =
is_fd_close_on_exec = true, allow_mmap_reads = disableDataSync =
use_fsync = disable_seek_compaction = disable_auto_compactions =
skip_log_error_on_recovery = no_block_cache = false.
Fields with no documented default (the level-0 triggers,
max_mem_compaction_level, expanded_compaction_factor,
max_grandparent_overlap_factor, rate_limit_delay_milliseconds,
table_cache_numshardbits) are given representative values satisfying
the spec's §3/§8 range invariants. -/
def Options.base : Options :=
  { comparator := some 0
    merge_operator := none
    compaction_filter := none
    create_if_missing := false
    error_if_exists := false
    paranoid_checks := false
    env := some 1
    info_log := none
    write_buffer_size := 4 * 1024 * 1024
    max_write_buffer_number := 2
    max_open_files := 1000
    block_cache := none
    block_size := 4 * 1024
    block_restart_interval := 16
    compression := .kSnappyCompression
    compression_per_level := []
    compression_opts := CompressionOptions.base
    filter_policy := none
    num_levels := 7
    level0_file_num_compaction_trigger := 4
    level0_slowdown_writes_trigger := 8
    level0_stop_writes_trigger := 12
    max_mem_compaction_level := 2
    target_file_size_base := 2 * 1048576
    target_file_size_multiplier := 1
    max_bytes_for_level_base := 10 * 1048576
    max_bytes_for_level_multiplier := 10
    max_bytes_for_level_multiplier_additional := []
    expanded_compaction_factor := 25
    source_compaction_factor := 1
    max_grandparent_overlap_factor := 10
    statistics := none
    disableDataSync := false
    use_fsync := false
    db_stats_log_interval := 1800
    db_log_dir := ""
    disable_seek_compaction := false
    delete_obsolete_files_period_micros := 0
    max_background_compactions := 1
    max_log_file_size := 0
    log_file_time_to_roll := 0
    keep_log_file_num := 1000
    rate_limit := 0
    rate_limit_delay_milliseconds := 1000
    max_manifest_file_size := 2 ^ 64 - 1
    no_block_cache := false
    table_cache_numshardbits := 4
    disable_auto_compactions := false
    WAL_ttl_seconds := 0
    manifest_preallocation_size := 4 * 1024 * 1024
    purge_redundant_kvs_while_flush := true
    allow_os_buffer := true
    allow_readahead := true
    allow_readahead_compactions := true
    allow_mmap_reads := false
    allow_mmap_writes := true
    is_fd_close_on_exec := true
    skip_log_error_on_recovery := false }

/-- Modelled from the spec: the body of `Options::PrepareForBulkLoad()`
lives in `util/options.cc`, which is absent from the sources; only its
declaration (header lines 373-380) and the spec's contract (§4.2) are
available.  Per the spec it overwrites exactly this subset of fields,
each to a fixed value, and leaves every other field alone:
it maximizes the three level-0 compaction triggers (set to the huge
sentinel `2^30` so no level-0 compaction, slowdown or stop is
triggered by file count), sets `disable_auto_compactions := true`,
and widens `write_buffer_size` and the file-size target
`target_file_size_base` to large fixed values to reduce
flush/compaction frequency.  The C++ routine mutates in place and
returns `this`; the embedding is the corresponding pure
configuration-to-configuration function. -/
def Options.PrepareForBulkLoad (o : Options) : Options :=
  { o with
    level0_file_num_compaction_trigger := 2 ^ 30
    level0_slowdown_writes_trigger := 2 ^ 30
    level0_stop_writes_trigger := 2 ^ 30
    disable_auto_compactions := true
    write_buffer_size := 64 * 1024 * 1024
    target_file_size_base := 256 * 1024 * 1024 }

/-- The opaque `Logger` capability (`include/leveldb/options.h`
forward declaration, line 22): only its identity matters here. -/
structure Logger : Type where
  id : Nat
deriving DecidableEq, Repr

/-- The lines `Options::Dump` emits, one per field in declaration
order, rendering the current value of every field of the
configuration. -/
def Options.dumpLines (o : Options) : List String :=
  [ "comparator: " ++ toString o.comparator
  , "merge_operator: " ++ toString o.merge_operator
  , "compaction_filter: " ++ toString o.compaction_filter
  , "create_if_missing: " ++ toString o.create_if_missing
  , "error_if_exists: " ++ toString o.error_if_exists
  , "paranoid_checks: " ++ toString o.paranoid_checks
  , "env: " ++ toString o.env
  , "info_log: " ++ toString o.info_log
  , "write_buffer_size: " ++ toString o.write_buffer_size
  , "max_write_buffer_number: " ++ toString o.max_write_buffer_number
  , "max_open_files: " ++ toString o.max_open_files
  , "block_cache: " ++ toString o.block_cache
  , "block_size: " ++ toString o.block_size
  , "block_restart_interval: " ++ toString o.block_restart_interval
  , "compression: " ++ toString o.compression.toNat
  , "compression_per_level: " ++ toString (o.compression_per_level.map CompressionType.toNat)
  , "compression_opts.window_bits: " ++ toString o.compression_opts.window_bits
  , "compression_opts.level: " ++ toString o.compression_opts.level
  , "compression_opts.strategy: " ++ toString o.compression_opts.strategy
  , "filter_policy: " ++ toString o.filter_policy
  , "num_levels: " ++ toString o.num_levels
  , "level0_file_num_compaction_trigger: " ++ toString o.level0_file_num_compaction_trigger
  , "level0_slowdown_writes_trigger: " ++ toString o.level0_slowdown_writes_trigger
  , "level0_stop_writes_trigger: " ++ toString o.level0_stop_writes_trigger
  , "max_mem_compaction_level: " ++ toString o.max_mem_compaction_level
  , "target_file_size_base: " ++ toString o.target_file_size_base
  , "target_file_size_multiplier: " ++ toString o.target_file_size_multiplier
  , "max_bytes_for_level_base: " ++ toString o.max_bytes_for_level_base
  , "max_bytes_for_level_multiplier: " ++ toString o.max_bytes_for_level_multiplier
  , "max_bytes_for_level_multiplier_additional: " ++ toString o.max_bytes_for_level_multiplier_additional
  , "expanded_compaction_factor: " ++ toString o.expanded_compaction_factor
  , "source_compaction_factor: " ++ toString o.source_compaction_factor
  , "max_grandparent_overlap_factor: " ++ toString o.max_grandparent_overlap_factor
  , "statistics: " ++ toString o.statistics
  , "disableDataSync: " ++ toString o.disableDataSync
  , "use_fsync: " ++ toString o.use_fsync
  , "db_stats_log_interval: " ++ toString o.db_stats_log_interval
  , "db_log_dir: " ++ o.db_log_dir
  , "disable_seek_compaction: " ++ toString o.disable_seek_compaction
  , "delete_obsolete_files_period_micros: " ++ toString o.delete_obsolete_files_period_micros
  , "max_background_compactions: " ++ toString o.max_background_compactions
  , "max_log_file_size: " ++ toString o.max_log_file_size
  , "log_file_time_to_roll: " ++ toString o.log_file_time_to_roll
  , "keep_log_file_num: " ++ toString o.keep_log_file_num
  , "rate_limit: " ++ toString o.rate_limit
  , "rate_limit_delay_milliseconds: " ++ toString o.rate_limit_delay_milliseconds
  , "max_manifest_file_size: " ++ toString o.max_manifest_file_size
  , "no_block_cache: " ++ toString o.no_block_cache
  , "table_cache_numshardbits: " ++ toString o.table_cache_numshardbits
  , "disable_auto_compactions: " ++ toString o.disable_auto_compactions
  , "WAL_ttl_seconds: " ++ toString o.WAL_ttl_seconds
  , "manifest_preallocation_size: " ++ toString o.manifest_preallocation_size
  , "purge_redundant_kvs_while_flush: " ++ toString o.purge_redundant_kvs_while_flush
  , "allow_os_buffer: " ++ toString o.allow_os_buffer
  , "allow_readahead: " ++ toString o.allow_readahead
  , "allow_readahead_compactions: " ++ toString o.allow_readahead_compactions
  , "allow_mmap_reads: " ++ toString o.allow_mmap_reads
  , "allow_mmap_writes: " ++ toString o.allow_mmap_writes
  , "is_fd_close_on_exec: " ++ toString o.is_fd_close_on_exec
  , "skip_log_error_on_recovery: " ++ toString o.skip_log_error_on_recovery ]

/-- Modelled from the spec: the body of `void Options::Dump(Logger*)
const` lives in `util/options.cc`, which is absent from the sources;
only its declaration (header line 371) and the spec's contract (§4.3)
are available.  It is `const` (never mutates the configuration), with
a null logging capability it becomes a no-op emitting nothing, and
with a logger it emits one deterministic human-readable line per
field.  The embedding returns the (unchanged) configuration together
with the emitted lines. -/
def Options.Dump (o : Options) (log : Option Logger) : Options × List String :=
  match log with
  | none => (o, [])
  | some _ => (o, o.dumpLines)

/-- Modelled from the spec: the engine code that walks levels
multiplying by the per-level size multiplier is outside the sources;
the header (lines 228-241) and spec §3 give the contract
"file size at level L = target_file_size_base *
target_file_size_multiplier^(L-1)", with levels 0 and 1 both at the
base size.  Embedded as the level-walking recurrence: start from the
base and multiply once per level above 1. -/
def Options.targetFileSizeForLevel (o : Options) : Nat → Int
  | 0 => o.target_file_size_base
  | 1 => o.target_file_size_base
  | n + 2 => o.targetFileSizeForLevel (n + 1) * o.target_file_size_multiplier

/-- The effective size multiplier applied when stepping from level
`i + 1` to level `i + 2`: `max_bytes_for_level_multiplier` scaled by
the per-level entry of `max_bytes_for_level_multiplier_additional`
when one is present (header lines 258-262; the default scale is 1). -/
def Options.effectiveLevelMultiplier (o : Options) (i : Nat) : Int :=
  o.max_bytes_for_level_multiplier *
    o.max_bytes_for_level_multiplier_additional.getD i 1

/-- Modelled from the spec: the engine code computing per-level byte
budgets is outside the sources; the header (lines 243-262) and spec
§3 give the contract "byte budget at level L =
max_bytes_for_level_base * max_bytes_for_level_multiplier^(L-1), or
the per-level override when present", with levels 0 and 1 both at the
base budget.  Embedded as the level-walking recurrence using the
effective (possibly overridden) multiplier at each step. -/
def Options.maxBytesForLevel (o : Options) : Nat → Int
  | 0 => (o.max_bytes_for_level_base : Int)
  | 1 => (o.max_bytes_for_level_base : Int)
  | n + 2 => o.maxBytesForLevel (n + 1) * o.effectiveLevelMultiplier n

/-- The documented validity range of every numeric field of
`Options` (spec §3 and §8: sizes strictly positive unless a sentinel
is documented; triggers and factors valid-positive or their
documented disable sentinel; a negative trigger disables it). -/
def Options.validNumeric (o : Options) : Prop :=
  0 < o.write_buffer_size ∧
  1 ≤ o.max_write_buffer_number ∧
  (1 ≤ o.max_open_files ∨ o.max_open_files < 0) ∧
  0 < o.block_size ∧
  1 ≤ o.block_restart_interval ∧
  1 ≤ o.num_levels ∧
  (0 < o.level0_file_num_compaction_trigger ∨
    o.level0_file_num_compaction_trigger < 0) ∧
  (0 < o.level0_slowdown_writes_trigger ∨
    o.level0_slowdown_writes_trigger < 0) ∧
  0 < o.level0_stop_writes_trigger ∧
  (0 ≤ o.max_mem_compaction_level ∧
    o.max_mem_compaction_level < o.num_levels) ∧
  0 < o.target_file_size_base ∧
  0 < o.target_file_size_multiplier ∧
  0 < o.max_bytes_for_level_base ∧
  0 < o.max_bytes_for_level_multiplier ∧
  0 < o.expanded_compaction_factor ∧
  0 < o.source_compaction_factor ∧
  0 < o.max_grandparent_overlap_factor ∧
  (0 < o.db_stats_log_interval ∨ o.db_stats_log_interval = -1) ∧
  1 ≤ o.max_background_compactions ∧
  0 < o.keep_log_file_num ∧
  0 < o.max_manifest_file_size ∧
  0 ≤ o.table_cache_numshardbits ∧
  0 < o.manifest_preallocation_size

/-- The opaque `Snapshot` capability (`include/leveldb/options.h`
forward declaration, line 24). -/
abbrev SnapshotPtr : Type := Option Nat

/-- `struct ReadOptions` from `include/leveldb/options.h`
lines 436-463. -/
structure ReadOptions : Type where
  verify_checksums : Bool
  fill_cache : Bool
  snapshot : SnapshotPtr
deriving DecidableEq, Repr

/-- The no-argument `ReadOptions()` constructor (lines 454-458):
`verify_checksums(false), fill_cache(true), snapshot(nullptr)`. -/
def ReadOptions.base : ReadOptions :=
  { verify_checksums := false, fill_cache := true, snapshot := none }

/-- The two-argument `ReadOptions(bool cksum, bool cache)` constructor
(lines 459-462): `verify_checksums(cksum), fill_cache(cache),
snapshot(nullptr)`. -/
def ReadOptions.ofFlags (cksum : Bool) (cache : Bool) : ReadOptions :=
  { verify_checksums := cksum, fill_cache := cache, snapshot := none }

/-- `struct WriteOptions` from `include/leveldb/options.h`
lines 466-493. -/
structure WriteOptions : Type where
  sync : Bool
  disableWAL : Bool
deriving DecidableEq, Repr

/-- The no-argument `WriteOptions()` constructor (lines 489-492):
`sync(false), disableWAL(false)`. -/
def WriteOptions.base : WriteOptions :=
  { sync := false, disableWAL := false }

/-- `struct FlushOptions` from `include/leveldb/options.h`
lines 496-504, with its constructor default `wait(true)`. -/
structure FlushOptions : Type where
  wait : Bool
deriving DecidableEq, Repr

/-- The no-argument `FlushOptions()` constructor: `wait(true)`. -/
def FlushOptions.base : FlushOptions :=
  { wait := true }

/-- Closed form for the target-file-size recurrence: one level above
the bottom the size is the base, and each further level multiplies by
`target_file_size_multiplier`. -/
theorem targetFileSizeForLevel_closed (o : Options) (n : Nat) :
    o.targetFileSizeForLevel (n + 1) =
      o.target_file_size_base * o.target_file_size_multiplier ^ n := by
  induction n with
  | zero => simp [Options.targetFileSizeForLevel]
  | succ k ih =>
    have hstep : o.targetFileSizeForLevel (k + 2) =
        o.targetFileSizeForLevel (k + 1) * o.target_file_size_multiplier := rfl
    rw [hstep, ih, pow_succ, mul_assoc]

/-- Closed form for the byte-budget recurrence: the budget at level
`n + 1` is the base times the product of the effective multipliers of
the `n` level steps below it. -/
theorem maxBytesForLevel_closed (o : Options) (n : Nat) :
    o.maxBytesForLevel (n + 1) =
      (o.max_bytes_for_level_base : Int) *
        ∏ i in Finset.range n, o.effectiveLevelMultiplier i := by
  induction n with
  | zero => simp [Options.maxBytesForLevel]
  | succ k ih =>
    have hstep : o.maxBytesForLevel (k + 2) =
        o.maxBytesForLevel (k + 1) * o.effectiveLevelMultiplier k := rfl
    rw [hstep, ih, Finset.prod_range_succ, mul_assoc]

/-- C1: the `CompressionType` enum assigns exactly the numeric values
`kNoCompression = 0`, `kSnappyCompression = 1`, `kZlibCompression = 2`
and `kBZip2Compression = 3`, and serializing any `CompressionType`
through its numeric encoding and deserializing it returns the same
value. -/
theorem compressionType_values_roundtrip :
    (CompressionType.kNoCompression.toNat = 0 ∧
     CompressionType.kSnappyCompression.toNat = 1 ∧
     CompressionType.kZlibCompression.toNat = 2 ∧
     CompressionType.kBZip2Compression.toNat = 3) ∧
    ∀ c : CompressionType, CompressionType.fromNat c.toNat = some c :=
  ⟨⟨rfl, rfl, rfl, rfl⟩, fun c => by cases c <;> rfl⟩

/-- C2: for every configuration, `PrepareForBulkLoad` leaves the
`comparator`, `merge_operator`, `compaction_filter`, `filter_policy`
and `env` fields equal to their values before the call. -/
theorem prepareForBulkLoad_frame (o : Options) :
    o.PrepareForBulkLoad.comparator = o.comparator ∧
    o.PrepareForBulkLoad.merge_operator = o.merge_operator ∧
    o.PrepareForBulkLoad.compaction_filter = o.compaction_filter ∧
    o.PrepareForBulkLoad.filter_policy = o.filter_policy ∧
    o.PrepareForBulkLoad.env = o.env :=
  ⟨rfl, rfl, rfl, rfl, rfl⟩

/-- C3: for every configuration (in particular the default one), after
`PrepareForBulkLoad` the field `disable_auto_compactions` is `true`
and each level-0 trigger field holds its negative disable sentinel or
a maximal value (at least `2^30`), so no level-0 compaction, slowdown
or stop is triggered by file count. -/
theorem prepareForBulkLoad_disables_level0 (o : Options) :
    o.PrepareForBulkLoad.disable_auto_compactions = true ∧
    (o.PrepareForBulkLoad.level0_file_num_compaction_trigger < 0 ∨
      2 ^ 30 ≤ o.PrepareForBulkLoad.level0_file_num_compaction_trigger) ∧
    (o.PrepareForBulkLoad.level0_slowdown_writes_trigger < 0 ∨
      2 ^ 30 ≤ o.PrepareForBulkLoad.level0_slowdown_writes_trigger) ∧
    (o.PrepareForBulkLoad.level0_stop_writes_trigger < 0 ∨
      2 ^ 30 ≤ o.PrepareForBulkLoad.level0_stop_writes_trigger) :=
  ⟨rfl, Or.inr (le_refl _), Or.inr (le_refl _), Or.inr (le_refl _)⟩

/-- C4: `PrepareForBulkLoad` is idempotent: applying it twice to any
configuration yields, field by field, the configuration obtained by
applying it once. -/
theorem prepareForBulkLoad_idempotent (o : Options) :
    o.PrepareForBulkLoad.PrepareForBulkLoad = o.PrepareForBulkLoad :=
  rfl

/-- C5: a default-constructed configuration has
`create_if_missing = false`, `max_open_files = 1000` and
`block_size = 4096` bytes. -/
theorem options_default_scenario :
    Options.base.create_if_missing = false ∧
    Options.base.max_open_files = 1000 ∧
    Options.base.block_size = 4096 :=
  ⟨rfl, rfl, rfl⟩

/-- C6: a default-constructed configuration has every numeric field
within its documented valid range: sizes strictly positive unless a
sentinel is documented, and every trigger/factor field either a valid
positive value or its documented disable sentinel. -/
theorem options_default_validNumeric : Options.base.validNumeric := by
  unfold Options.validNumeric
  decide

/-- C7: `Dump` never fails and never mutates the configuration: for
every configuration it returns the configuration unchanged, both with
a null logger (where it emits nothing, a no-op) and with any non-null
logger. -/
theorem dump_pure (o : Options) (l : Logger) :
    (o.Dump none).1 = o ∧
    (o.Dump none).2 = [] ∧
    (o.Dump (some l)).1 = o :=
  ⟨rfl, rfl, rfl⟩

/-- C8: for every level `L ≥ 1`, the target file size at level `L` is
`target_file_size_base * target_file_size_multiplier^(L-1)` and the
byte budget at level `L` is `max_bytes_for_level_base` times the
product of the effective multipliers (the per-level override from
`max_bytes_for_level_multiplier_additional` applied when present); in
particular with no per-level overrides the budget is exactly
`max_bytes_for_level_base * max_bytes_for_level_multiplier^(L-1)`,
with no rounding drift across levels. -/
theorem level_size_formulas (o : Options) (L : Nat) (h : 1 ≤ L) :
    o.targetFileSizeForLevel L =
      o.target_file_size_base * o.target_file_size_multiplier ^ (L - 1) ∧
    o.maxBytesForLevel L =
      (o.max_bytes_for_level_base : Int) *
        ∏ i in Finset.range (L - 1), o.effectiveLevelMultiplier i ∧
    (o.max_bytes_for_level_multiplier_additional = [] →
      o.maxBytesForLevel L =
        (o.max_bytes_for_level_base : Int) *
          o.max_bytes_for_level_multiplier ^ (L - 1)) := by
  obtain ⟨n, rfl⟩ : ∃ n, L = n + 1 :=
    ⟨L - 1, (Nat.succ_pred_eq_of_pos h).symm⟩
  refine ⟨?_, ?_, ?_⟩
  · simpa using targetFileSizeForLevel_closed o n
  · simpa using maxBytesForLevel_closed o n
  · intro hadd
    have hmul : ∀ i : Nat, o.effectiveLevelMultiplier i =
        o.max_bytes_for_level_multiplier := by
      intro i
      simp [Options.effectiveLevelMultiplier, hadd]
    have := maxBytesForLevel_closed o n
    simpa [hmul, Finset.prod_const, Finset.card_range] using this

/-- Witness for C8: at the default configuration and level 3, the
hypothesis `1 ≤ 3` holds and the formulas follow. -/
theorem level_size_formulas_witness :
    1 ≤ 3 ∧
    (Options.base.targetFileSizeForLevel 3 =
      Options.base.target_file_size_base *
        Options.base.target_file_size_multiplier ^ (3 - 1) ∧
    Options.base.maxBytesForLevel 3 =
      (Options.base.max_bytes_for_level_base : Int) *
        ∏ i in Finset.range (3 - 1), Options.base.effectiveLevelMultiplier i ∧
    (Options.base.max_bytes_for_level_multiplier_additional = [] →
      Options.base.maxBytesForLevel 3 =
        (Options.base.max_bytes_for_level_base : Int) *
          Options.base.max_bytes_for_level_multiplier ^ (3 - 1))) :=
  ⟨by norm_num, level_size_formulas Options.base 3 (by norm_num)⟩

/-- C9: a default-constructed `WriteOptions` has `sync = false` and
`disableWAL = false`. -/
theorem writeOptions_default_scenario :
    WriteOptions.base.sync = false ∧ WriteOptions.base.disableWAL = false :=
  ⟨rfl, rfl⟩

/-- C10: both `ReadOptions` constructors set `snapshot` to null: the
default constructor yields `verify_checksums = false`,
`fill_cache = true`, `snapshot = nullptr`, and the two-argument
constructor stores its arguments into `verify_checksums` and
`fill_cache` and always sets `snapshot` to null regardless of the
arguments. -/
theorem readOptions_constructors (cksum cache : Bool) :
    ReadOptions.base.verify_checksums = false ∧
    ReadOptions.base.fill_cache = true ∧
    ReadOptions.base.snapshot = none ∧
    (ReadOptions.ofFlags cksum cache).verify_checksums = cksum ∧
    (ReadOptions.ofFlags cksum cache).fill_cache = cache ∧
    (ReadOptions.ofFlags cksum cache).snapshot = none :=
  ⟨rfl, rfl, rfl, rfl, rfl, rfl⟩

end RocksDBOptions
